import Mathlib

/-!
# The native-function bridge of the Kilate interpreter

A shallow embedding of `src/native.c`: the registry of native functions
(`native_functions`), the plugin loader and the three built-in natives
`print`, `system` and `sleep`, followed by the properties proved about them.

Conventions of the embedding.

* A `klt_str` (a `char*`) is modelled by the `String` holding the text before
  its terminating NUL, one character per byte.  Where the code reinterprets
  the pointer itself as a number (`klt_native_sleep`), the pointer bits are
  carried next to the text.
* The process-wide vector `native_functions` is passed explicitly.
* What a C function does to the outside world (standard output, host
  commands, suspensions, libraries loaded) is returned as a trace.
* A call whose C behaviour is undefined (a NULL dereference, a vector read
  out of range) returns `none`.
* The host's dynamic loader is a parameter.  A successful `dlopen` hands back
  the library's handle together with what the library's initialisers do to
  the registry; they run when the library is loaded for the first time.
-/

set_option autoImplicit false

/-! ## The generic container and string helpers -/

/-- Modelled from the spec: the generic ordered container of `kilate/vector.h`,
which is not part of `src/`; an ordered sequence with `size`, indexed read and
append at the end. -/
abbrev klt_vector (α : Type) := List α

/-- Modelled from the spec: `klt_vector_make`, a new empty container. -/
def klt_vector_make {α : Type} : klt_vector α := []

/-- Modelled from the spec: `klt_vector_push_back`, append one element at the end. -/
def klt_vector_push_back {α : Type} (v : klt_vector α) (x : α) : klt_vector α := v ++ [x]

/-- Modelled from the spec: `klt_vector_get`, the element at index `i`
(`none` outside the container). -/
def klt_vector_get {α : Type} (v : klt_vector α) (i : Nat) : Option α := v[i]?

/-- Modelled from the spec: `klt_str_equals` of `kilate/string.h`, which is not
part of `src/`; the spec calls the comparison of `find` an exact name match. -/
def klt_str_equals (a b : String) : Bool := decide (a = b)

/-- The libc `strdup`: a fresh copy of the text. -/
def strdup (s : String) : String := s

/-! ## The registry -/

/-- The callable of an entry (`klt_native_fn`, a function pointer): one of the
three built-ins of this file or a function living in a loaded library. -/
inductive klt_native_fn where
  | klt_native_print
  | klt_native_system
  | klt_native_sleep
  | external (address : Nat)
  deriving DecidableEq, Repr

/-- The `klt_native_fnentry` record; `requiredParams` is a pointer to a vector
of type-tag names and may be NULL (`none`). -/
structure klt_native_fnentry where
  name : String
  requiredParams : Option (klt_vector String)
  fn : klt_native_fn
  deriving DecidableEq, Repr

/-- `klt_native_register_fnentry`: push the entry onto `native_functions`. -/
def klt_native_register_fnentry (native_functions : klt_vector klt_native_fnentry)
    (entry : klt_native_fnentry) : klt_vector klt_native_fnentry :=
  klt_vector_push_back native_functions entry

/-- `klt_native_register_fn`: build the entry (the name is copied, the
signature and the callable are stored as passed) and register it. -/
def klt_native_register_fn (native_functions : klt_vector klt_native_fnentry)
    (name : String) (requiredParams : Option (klt_vector String)) (fn : klt_native_fn) :
    klt_vector klt_native_fnentry :=
  let entry : klt_native_fnentry :=
    { name := strdup name, fn := fn, requiredParams := requiredParams }
  klt_native_register_fnentry native_functions entry

/-- The loop of `klt_native_find_function` from index `i` on, with `remaining`
iterations left (`size - i` when entered from the function). -/
def klt_native_find_function_loop (native_functions : klt_vector klt_native_fnentry)
    (name : String) : (remaining : Nat) → (i : Nat) → Option klt_native_fnentry
  | 0, _ => none
  | remaining + 1, i =>
    match klt_vector_get native_functions i with
    | none => none
    | some entry =>
      if klt_str_equals entry.name name then some entry
      else klt_native_find_function_loop native_functions name remaining (i + 1)

/-- `klt_native_find_function`: scan `native_functions` from index `0` to
`size - 1` and return the first entry whose name equals `name`; `none` is the
NULL result. -/
def klt_native_find_function (native_functions : klt_vector klt_native_fnentry)
    (name : String) : Option klt_native_fnentry :=
  klt_native_find_function_loop native_functions name native_functions.length 0

/-- `klt_native_register_all_functions`: the three built-ins, each with a
one-element signature. -/
def klt_native_register_all_functions (native_functions : klt_vector klt_native_fnentry) :
    klt_vector klt_native_fnentry :=
  let native_functions :=
    let requiredParams : klt_vector String := klt_vector_make
    let any := "any"
    let requiredParams := klt_vector_push_back requiredParams any
    klt_native_register_fn native_functions "print" (some requiredParams)
      klt_native_fn.klt_native_print
  let native_functions :=
    let requiredParams : klt_vector String := klt_vector_make
    let str := "string"
    let requiredParams := klt_vector_push_back requiredParams str
    klt_native_register_fn native_functions "system" (some requiredParams)
      klt_native_fn.klt_native_system
  let native_functions :=
    let requiredParams : klt_vector String := klt_vector_make
    let str := "long"
    let requiredParams := klt_vector_push_back requiredParams str
    klt_native_register_fn native_functions "sleep" (some requiredParams)
      klt_native_fn.klt_native_sleep
  native_functions

/-! ## The plugin loader -/

/-- The libc `strstr(haystack, needle) != NULL` on character lists: `needle`
occurs somewhere in `haystack`. -/
def strstr_chars (needle : List Char) : List Char → Bool
  | [] => needle.isEmpty
  | c :: rest => needle.isPrefixOf (c :: rest) || strstr_chars needle rest

/-- The test `strstr(haystack, needle)` of the C code: true when the result is
not NULL. -/
def strstr (haystack needle : String) : Bool := strstr_chars needle.toList haystack.toList

/-- The call `snprintf(path, size, "%s%s", a, b)`: the concatenation, cut to
the `size - 1` characters that fit before the terminating NUL. -/
def snprintf_ss (size : Nat) (a b : String) : String :=
  String.mk ((a.toList ++ b.toList).take (size - 1))

/-- The entry point `void KILATE_NATIVE_REGISTER()` of a loaded library, as
what running it does to `native_functions` (it is expected to call
`klt_native_register_fn`; the loader does not look at what it does). -/
abbrev plugin_entry_point := klt_vector klt_native_fnentry → klt_vector klt_native_fnentry

/-- A library a successful `dlopen` returns: its handle (one library has one
handle, by whatever path it is opened) and what its initialisers
(constructors) do to `native_functions`.  `dlopen` runs them when it loads a
library that is not loaded yet, before it returns; they may call
`klt_native_register_fn`.  For a library with no initialiser, or one loaded
before the scan began, they are the identity. -/
structure dl_library where
  handle : Nat
  constructors : plugin_entry_point

/-- The host facilities the loader calls: `opendir`/`readdir` (the names of a
directory in the order `readdir` yields them, `none` when `opendir` returns
NULL), `dlopen` (`none` for NULL: nothing was loaded and no initialiser ran)
and `dlsym`. -/
structure host_loader where
  opendir : String → Option (List String)
  dlopen : String → Option dl_library
  dlsym : Nat → String → Option plugin_entry_point

/-- What the loader did with one candidate library: the index of its directory
in `libs_native_directories`, its path, and the outcome. -/
inductive loader_event where
  /-- `dlopen` returned NULL: "Error loading ..." on the error stream. -/
  | load_failed (dir_index : Nat) (path : String)
  /-- Loaded, `dlsym` returned NULL: "Function KILATE_NATIVE_REGISTER not
  found in ..." on the error stream. -/
  | symbol_missing (dir_index : Nat) (path : String)
  /-- Loaded, entry point found and called. -/
  | invoked (dir_index : Nat) (path : String)
  deriving DecidableEq, Repr

/-- The directory index of an event. -/
def loader_event.dir : loader_event → Nat
  | load_failed i _ => i
  | symbol_missing i _ => i
  | invoked i _ => i

/-- True for the events in which an entry point was called. -/
def loader_event.is_invoked : loader_event → Bool
  | invoked _ _ => true
  | _ => false

/-- True for the events in which `dlopen` returned NULL. -/
def loader_event.is_load_failed : loader_event → Bool
  | load_failed _ _ => true
  | _ => false

/-- The state the loader threads through: the registry, the log of what was
done with each candidate, and the handles of the libraries loaded so far
(nothing is ever unloaded: there is no `dlclose`). -/
structure loader_state where
  native_functions : klt_vector klt_native_fnentry
  events : List loader_event
  loaded : List Nat

/-- What a successful `dlopen(path, RTLD_NOW)` does before it returns: a
library that is not loaded yet is loaded and its initialisers run; for one
that is loaded already only the handle is returned. -/
def dlopen_loads (library : dl_library) (st : loader_state) : loader_state :=
  if library.handle ∈ st.loaded then st
  else
    { st with
      native_functions := library.constructors st.native_functions,
      loaded := st.loaded ++ [library.handle] }

/-- The `while ((entry = readdir(d)))` loop of `klt_native_load_extern` over
the names `readdir` still has to yield, in directory `dir` of index `i`. -/
def klt_native_load_extern_readdir (host : host_loader) (i : Nat) (dir : String) :
    List String → loader_state → loader_state
  | [], st => st
  | d_name :: later, st =>
    if strstr d_name ".so" then
      let path := snprintf_ss 512 dir d_name
      match host.dlopen path with
      | none =>
        klt_native_load_extern_readdir host i dir later
          { st with events := st.events ++ [loader_event.load_failed i path] }
      | some library =>
        let st := dlopen_loads library st
        match host.dlsym library.handle "KILATE_NATIVE_REGISTER" with
        | none =>
          klt_native_load_extern_readdir host i dir later
            { st with events := st.events ++ [loader_event.symbol_missing i path] }
        | some extern_native_init =>
          klt_native_load_extern_readdir host i dir later
            { st with
              native_functions := extern_native_init st.native_functions,
              events := st.events ++ [loader_event.invoked i path] }
    else klt_native_load_extern_readdir host i dir later st

/-- The `for` loop of `klt_native_load_extern` from index `i` on, with
`remaining` iterations left; an unopenable directory returns from the function. -/
def klt_native_load_extern_loop (host : host_loader)
    (libs_native_directories : klt_vector String) :
    (remaining : Nat) → (i : Nat) → loader_state → loader_state
  | 0, _, st => st
  | remaining + 1, i, st =>
    match klt_vector_get libs_native_directories i with
    | none => st
    | some dir =>
      match host.opendir dir with
      | none => st
      | some names =>
        klt_native_load_extern_loop host libs_native_directories remaining (i + 1)
          ( klt_native_load_extern_readdir host i dir names st)

/-- `klt_native_load_extern`: scan the configured directories in order. -/
def klt_native_load_extern (host : host_loader) (libs_native_directories : klt_vector String)
    (native_functions : klt_vector klt_native_fnentry) : loader_state :=
  klt_native_load_extern_loop host libs_native_directories libs_native_directories.length 0
    { native_functions := native_functions, events := [], loaded := [] }

/-! ## Life cycle of the global registry -/

/-- The global `klt_node_vector* native_functions`: `none` when it points to no
live vector (NULL before the first `klt_native_init`, freed after
`klt_native_end`). -/
structure native_globals where
  native_functions : Option (klt_vector klt_native_fnentry)

/-- `klt_native_init`: a new empty vector replaces whatever the global held,
the built-ins are registered, then the plugins are loaded. -/
def klt_native_init (host : host_loader) (libs_native_directories : klt_vector String)
    (_g : native_globals) : native_globals × List loader_event :=
  let native_functions : klt_vector klt_native_fnentry := klt_vector_make
  let native_functions := klt_native_register_all_functions native_functions
  let st := klt_native_load_extern host libs_native_directories native_functions
  ({ native_functions := some st.native_functions }, st.events)

/-- `klt_native_end`: free every entry, then the vector; the global no longer
points to a live vector.  Undefined (`none`) when there is no live vector. -/
def klt_native_end (g : native_globals) : Option native_globals :=
  match g.native_functions with
  | none => none
  | some _ => some { native_functions := none }

/-! ## Vocabulary for the statements about the loader -/

/-- The scan of `klt_native_load_extern` written over the list of directories
still to visit (the first of them has index `i`); `scan_directories_eq` shows
that the indexed loop of the code computes this. -/
def scan_directories (host : host_loader) : Nat → List String → loader_state → loader_state
  | _, [], st => st
  | i, dir :: later, st =>
    match host.opendir dir with
    | none => st
    | some names =>
      scan_directories host (i + 1) later ( klt_native_load_extern_readdir host i dir names st)

/-- The body of the `while` loop of `klt_native_load_extern` for the one name
`d_name`; `readdir_cons` shows that the loop takes this step for each name. -/
def readdir_entry (host : host_loader) (i : Nat) (dir d_name : String) (st : loader_state) :
    loader_state :=
  if strstr d_name ".so" then
    match host.dlopen (snprintf_ss 512 dir d_name) with
    | none =>
      { st with events := st.events ++ [loader_event.load_failed i (snprintf_ss 512 dir d_name)] }
    | some library =>
      match host.dlsym library.handle "KILATE_NATIVE_REGISTER" with
      | none =>
        { dlopen_loads library st with
          events := (dlopen_loads library st).events
            ++ [loader_event.symbol_missing i (snprintf_ss 512 dir d_name)] }
      | some extern_native_init =>
        { dlopen_loads library st with
          native_functions := extern_native_init (dlopen_loads library st).native_functions,
          events := (dlopen_loads library st).events
            ++ [loader_event.invoked i (snprintf_ss 512 dir d_name)] }
  else st

/-- A directory entry is a candidate library when its name contains `.so`. -/
def is_candidate (d_name : String) : Bool := strstr d_name ".so"

/-- A candidate loads and has the entry point `KILATE_NATIVE_REGISTER`. -/
def candidate_succeeds (host : host_loader) (dir d_name : String) : Bool :=
  match host.dlopen (snprintf_ss 512 dir d_name) with
  | none => false
  | some library => (host.dlsym library.handle "KILATE_NATIVE_REGISTER").isSome

/-- A candidate that fails to load or lacks the entry point. -/
def candidate_fails (host : host_loader) (dir d_name : String) : Bool :=
  is_candidate d_name && !candidate_succeeds host dir d_name

/-- The same host with the failing candidates removed from every directory. -/
def without_failing_candidates (host : host_loader) : host_loader :=
  { host with
    opendir := fun dir =>
      (host.opendir dir).map (List.filter (fun d_name => !candidate_fails host dir d_name)) }

/-- The calls of entry points a complete scan has to make: for each directory
in order (the first has index `i`), one call for each candidate of its listing
that succeeds, in listing order. -/
def expected_invocations (host : host_loader) : Nat → List String → List loader_event
  | _, [] => []
  | i, dir :: later =>
    (((host.opendir dir).getD []).filter
        (fun d_name => is_candidate d_name && candidate_succeeds host dir d_name)).map
      (fun d_name => loader_event.invoked i (snprintf_ss 512 dir d_name))
    ++ expected_invocations host (i + 1) later

/-- What the loader does with the candidate `d_name` of directory `dir`, of
index `i`: the event it logs. -/
def candidate_outcome (host : host_loader) (i : Nat) (dir d_name : String) : loader_event :=
  match host.dlopen (snprintf_ss 512 dir d_name) with
  | none => loader_event.load_failed i (snprintf_ss 512 dir d_name)
  | some library =>
    match host.dlsym library.handle "KILATE_NATIVE_REGISTER" with
    | none => loader_event.symbol_missing i (snprintf_ss 512 dir d_name)
    | some _ => loader_event.invoked i (snprintf_ss 512 dir d_name)

/-- The log of a complete scan: for each directory in order (the first has
index `i`), one event for each candidate of its listing, in listing order. -/
def expected_outcomes (host : host_loader) : Nat → List String → List loader_event
  | _, [] => []
  | i, dir :: later =>
    (((host.opendir dir).getD []).filter is_candidate).map (candidate_outcome host i dir)
    ++ expected_outcomes host (i + 1) later

/-- The same host with every directory listing cut down to the names that
`keep` retains. -/
def filter_listings (host : host_loader) (keep : String → String → Bool) : host_loader :=
  { host with opendir := fun dir => (host.opendir dir).map (List.filter (keep dir)) }

/-- A candidate for which `dlopen` returns NULL. -/
def candidate_fails_to_load (host : host_loader) (dir d_name : String) : Bool :=
  is_candidate d_name && (host.dlopen (snprintf_ss 512 dir d_name)).isNone

/-- The candidates that fail to load, and only they, removed from every
directory. -/
def without_load_failures (host : host_loader) : host_loader :=
  filter_listings host (fun dir d_name => !candidate_fails_to_load host dir d_name)

/-- What the loader has to do with one candidate, on the handles loaded so far
and the registry: nothing when it does not load; otherwise its initialisers
run if it was not loaded yet, and then its entry point is called once, if it
has one. -/
def candidate_step (host : host_loader) (dir d_name : String)
    (s : List Nat × klt_vector klt_native_fnentry) : List Nat × klt_vector klt_native_fnentry :=
  match host.dlopen (snprintf_ss 512 dir d_name) with
  | none => s
  | some library =>
    let s := if library.handle ∈ s.1 then s
             else (s.1 ++ [library.handle], library.constructors s.2)
    match host.dlsym library.handle "KILATE_NATIVE_REGISTER" with
    | none => s
    | some extern_native_init => (s.1, extern_native_init s.2)

/-- The candidates of a complete scan, each with its directory: for each
directory in order, the names of its listing that contain `.so`, in listing
order. -/
def matching_candidates (host : host_loader) : List String → List (String × String)
  | [] => []
  | dir :: later =>
    (((host.opendir dir).getD []).filter is_candidate).map (fun d_name => (dir, d_name))
    ++ matching_candidates host later

/-- The registry a complete scan has to produce from `native_functions`: every
candidate of every directory takes its step, once, in order. -/
def expected_registry (host : host_loader) (libs_native_directories : List String)
    (native_functions : klt_vector klt_native_fnentry) : klt_vector klt_native_fnentry :=
  ((matching_candidates host libs_native_directories).foldl
    (fun s candidate => candidate_step host candidate.1 candidate.2 s)
    ([], native_functions)).2

/-- A host for the examples.  Directory `a/` lists a good library, one that
does not load, a file that is no candidate and another good library;
directory `b/` lists a library without the entry point and a good one;
directory `gone/` cannot be opened.  No library has an initialiser that
registers. -/
def example_host : host_loader where
  opendir := fun dir =>
    if dir = "a/" then some ["x.so", "bad.so", "README", "y.so"]
    else if dir = "b/" then some ["nosym.so", "z.so"]
    else none
  dlopen := fun path =>
    if path = "a/x.so" then some ⟨1, fun fns => fns⟩
    else if path = "a/y.so" then some ⟨2, fun fns => fns⟩
    else if path = "b/nosym.so" then some ⟨3, fun fns => fns⟩
    else if path = "b/z.so" then some ⟨4, fun fns => fns⟩
    else none
  dlsym := fun handle symbol =>
    if symbol = "KILATE_NATIVE_REGISTER" then
      if handle = 1 then
        some (fun fns => klt_native_register_fn fns "x" none (klt_native_fn.external 1))
      else if handle = 2 then
        some (fun fns => klt_native_register_fn fns "y" none (klt_native_fn.external 2))
      else if handle = 4 then
        some (fun fns => klt_native_register_fn fns "z" none (klt_native_fn.external 4))
      else none
    else none

/-- The example host, except that the library `b/nosym.so`, which has no
entry point, has an initialiser that registers the native function `ctor`. -/
def constructor_host : host_loader :=
  { example_host with
    dlopen := fun path =>
      if path = "b/nosym.so" then
        some ⟨3, fun fns => klt_native_register_fn fns "ctor" none (klt_native_fn.external 3)⟩
      else example_host.dlopen path }

/-! ## Values, environment and call data -/

/-- Modelled from the spec: the enum `klt_node_valuetype` of `kilate/node.h`,
which is not part of `src/`.  The seven kinds are the enumerators `native.c`
names; `NODE_VALUE_TYPE_OTHER` stands for any further enumerator, which the
`switch` statements send to `default:`. -/
inductive klt_node_valuetype where
  | NODE_VALUE_TYPE_INT
  | NODE_VALUE_TYPE_FLOAT
  | NODE_VALUE_TYPE_LONG
  | NODE_VALUE_TYPE_STRING
  | NODE_VALUE_TYPE_BOOL
  | NODE_VALUE_TYPE_FUNC
  | NODE_VALUE_TYPE_VAR
  | NODE_VALUE_TYPE_OTHER (tag : Nat)
  deriving DecidableEq, Repr

open klt_node_valuetype

/-- What the address held in a `void*` leads to, as far as `native.c` reads it:
nothing it may read, NUL-terminated text, or a `float` (by its bit pattern). -/
inductive klt_pointee where
  | nothing
  | text (s : String)
  | float (bit_pattern : Nat)
  deriving DecidableEq, Repr

/-- A `void*` value: the pointer's own bits read as an `intptr_t` (an integer
kind is stored there directly) and what the address leads to. -/
structure klt_voidptr where
  bits : Int
  pointee : klt_pointee
  deriving DecidableEq, Repr

/-- The `vardec_n` member of a node: the declared variable's kind and value. -/
structure klt_vardec_n where
  var_value_type : klt_node_valuetype
  var_value : klt_voidptr
  deriving DecidableEq, Repr

/-- Modelled from the spec: a `klt_node` of `kilate/node.h`, of which
`native.c` reads the member `vardec_n` only. -/
structure klt_node where
  vardec_n : klt_vardec_n
  deriving DecidableEq, Repr

/-- Modelled from the spec: the variable environment, consumed only through
"resolve variable by name", which yields a node or fails. -/
abbrev klt_environment := String → Option klt_node

/-- Modelled from the spec: `klt_environment_getvar`, which is not part of
`src/`; `none` is the NULL of a failed resolution. -/
def klt_environment_getvar (env : klt_environment) (name : String) : Option klt_node := env name

/-- A call parameter (`klt_node_fnparam`): its kind, the text `value` points
to, and the bits of the pointer `value` itself. -/
structure klt_node_fnparam where
  type : klt_node_valuetype
  value : String
  value_bits : Int

/-- The call data (`klt_native_fndata`) handed to a native function. -/
structure klt_native_fndata where
  params : klt_vector klt_node_fnparam
  env : klt_environment

/-- A conversion to a signed integer type of `width` bits: the value modulo
`2 ^ width`, taken in `[-2 ^ (width - 1), 2 ^ (width - 1))`. -/
def to_signed (width : Nat) (w : Int) : Int :=
  (w + 2 ^ (width - 1)) % 2 ^ width - 2 ^ (width - 1)

/-- The cast `(int)(intptr_t)p` with a 32-bit `int`. -/
def int_of_intptr (bits : Int) : Int := to_signed 32 bits

/-- The cast `(long)(intptr_t)p` with a 64-bit `long`. -/
def long_of_intptr (bits : Int) : Int := to_signed 64 bits

/-- The text `printf("%d", v)` and `printf("%ld", v)` write: the decimal
digits of `v`, after a minus sign when `v` is negative. -/
def printf_d (v : Int) : String :=
  if v < 0 then "-" ++ Nat.repr v.natAbs else Nat.repr v.natAbs

/-! ## The built-in natives -/

/-- The body of the `for` loop of `klt_native_print` for one parameter, as the
new content of standard output.  `printf_f` is the text `printf("%f", x)`
writes for the float of a given bit pattern; `klt_bool` is taken to be C's
`bool`, so any non-zero word prints as `true`. -/
def klt_native_print_param (printf_f : Nat → String) (env : klt_environment)
    (param : klt_node_fnparam) (stdout : String) : Option String :=
  if param.type = NODE_VALUE_TYPE_VAR then
    match klt_environment_getvar env param.value with
    | none => none
    | some var =>
      let value := var.vardec_n.var_value
      match var.vardec_n.var_value_type with
      | NODE_VALUE_TYPE_INT => some (stdout ++ printf_d (int_of_intptr value.bits))
      | NODE_VALUE_TYPE_FLOAT =>
        match value.pointee with
        | klt_pointee.float x => some (stdout ++ printf_f x)
        | _ => none
      | NODE_VALUE_TYPE_LONG => some (stdout ++ printf_d (long_of_intptr value.bits))
      | NODE_VALUE_TYPE_STRING =>
        match value.pointee with
        | klt_pointee.text s => some (stdout ++ s)
        | _ => none
      | NODE_VALUE_TYPE_BOOL => some (stdout ++ (if value.bits ≠ 0 then "true" else "false"))
      | NODE_VALUE_TYPE_FUNC => some stdout
      | NODE_VALUE_TYPE_VAR => some stdout
      | NODE_VALUE_TYPE_OTHER _ => some stdout
  else some (stdout ++ param.value)

/-- The `for` loop of `klt_native_print` from index `i` on, with `remaining`
iterations left. -/
def klt_native_print_loop (printf_f : Nat → String) (data : klt_native_fndata) :
    (remaining : Nat) → (i : Nat) → String → Option String
  | 0, _, stdout => some stdout
  | remaining + 1, i, stdout =>
    match klt_vector_get data.params i with
    | none => none
    | some param =>
      match klt_native_print_param printf_f data.env param stdout with
      | none => none
      | some stdout => klt_native_print_loop printf_f data remaining (i + 1) stdout

/-- `klt_native_print`: the returned node (`none` is NULL) and the content of
standard output after the call, given its content before. -/
def klt_native_print (printf_f : Nat → String) (data : klt_native_fndata) (stdout : String) :
    Option (Option klt_node × String) :=
  match klt_native_print_loop printf_f data data.params.length 0 stdout with
  | none => none
  | some stdout => some (none, stdout)

/-- One execution of a host command by the libc `system`: the command text and
the status the host returned for it. -/
structure host_command where
  text : String
  status : Int
  deriving DecidableEq, Repr

/-- The body of the `for` loop of `klt_native_system` for one parameter, as
the new log of executed commands; the value `system` returns is dropped. -/
def klt_native_system_param (system : String → Int) (env : klt_environment)
    (param : klt_node_fnparam) (commands : List host_command) : Option (List host_command) :=
  if param.type = NODE_VALUE_TYPE_VAR then
    match klt_environment_getvar env param.value with
    | none => none
    | some var =>
      let value := var.vardec_n.var_value
      match var.vardec_n.var_value_type with
      | NODE_VALUE_TYPE_STRING =>
        match value.pointee with
        | klt_pointee.text s => some (commands ++ [⟨s, system s⟩])
        | _ => none
      | _ => some commands
  else some (commands ++ [⟨param.value, system param.value⟩])

/-- The `for` loop of `klt_native_system` from index `i` on, with `remaining`
iterations left. -/
def klt_native_system_loop (system : String → Int) (data : klt_native_fndata) :
    (remaining : Nat) → (i : Nat) → List host_command → Option (List host_command)
  | 0, _, commands => some commands
  | remaining + 1, i, commands =>
    match klt_vector_get data.params i with
    | none => none
    | some param =>
      match klt_native_system_param system data.env param commands with
      | none => none
      | some commands => klt_native_system_loop system data remaining (i + 1) commands

/-- `klt_native_system`: the returned node (`none` is NULL) and the log of
host commands after the call. -/
def klt_native_system (system : String → Int) (data : klt_native_fndata)
    (commands : List host_command) : Option (Option klt_node × List host_command) :=
  match klt_native_system_loop system data data.params.length 0 commands with
  | none => none
  | some commands => some (none, commands)

/-- The macro `psleep(ms)`: one suspension of the calling thread, logged by
the macro's argument. -/
def psleep (ms : Int) (suspensions : List Int) : List Int := suspensions ++ [ms]

/-- `klt_native_sleep`: the returned node (`none` is NULL) and the log of
suspensions after the call.  `klt_str_to_int` is the conversion of
`kilate/string.h`, which is not part of `src/`. -/
def klt_native_sleep (klt_str_to_int : String → Int) (data : klt_native_fndata)
    (suspensions : List Int) : Option (Option klt_node × List Int) :=
  match klt_vector_get data.params 0 with
  | none => none
  | some param =>
    let after_branch : Option (List Int) :=
      if param.type = NODE_VALUE_TYPE_VAR then
        match klt_environment_getvar data.env param.value with
        | none => none
        | some var =>
          if var.vardec_n.var_value_type ≠ NODE_VALUE_TYPE_INT then
            some (psleep (int_of_intptr param.value_bits) suspensions)
          else some suspensions
      else some suspensions
    match after_branch with
    | none => none
    | some suspensions => some (none, psleep (klt_str_to_int param.value) suspensions)

/-- An environment for the examples: `answer` is an integer 42, `cmd` the
string `true`, `delay` a long 250; no other name resolves. -/
def example_env : klt_environment := fun name =>
  if name = "answer" then some ⟨⟨NODE_VALUE_TYPE_INT, ⟨42, klt_pointee.nothing⟩⟩⟩
  else if name = "cmd" then some ⟨⟨NODE_VALUE_TYPE_STRING, ⟨140737488, klt_pointee.text "true"⟩⟩⟩
  else if name = "delay" then some ⟨⟨NODE_VALUE_TYPE_LONG, ⟨250, klt_pointee.nothing⟩⟩⟩
  else none

/-- The raw payload texts of the parameters, one after the other with
nothing between them and nothing after the last. -/
def concat_payloads : List klt_node_fnparam → String
  | [] => ""
  | param :: later => param.value ++ concat_payloads later

/-- The leading decimal digits of a text as a number, `acc` being the value
of the digits read so far. -/
def leading_digits : List Char → Int → Int
  | [], acc => acc
  | c :: later, acc =>
    if c.isDigit then leading_digits later (10 * acc + (c.toNat - 48 : Nat)) else acc

/-- A conversion for the examples, standing in for `klt_str_to_int`: the value
of the leading decimal digits, `0` when there are none. -/
def example_str_to_int (s : String) : Int := leading_digits s.toList 0

/-! ## Properties of the registry -/

/-- The loop over the part `suf` of the vector that is still to be visited is
the first match of `suf`. -/
theorem find_function_loop_eq (name : String) (suf pre : List klt_native_fnentry) :
    klt_native_find_function_loop (pre ++ suf) name suf.length pre.length
      = suf.find? (fun e => klt_str_equals e.name name) := by
  induction suf generalizing pre with
  | nil => rfl
  | cons e suf ih =>
    have hget : klt_vector_get (pre ++ e :: suf) pre.length = some e := by
      rw [klt_vector_get, List.getElem?_append_right (Nat.le_refl _)]
      simp
    simp only [List.length_cons, klt_native_find_function_loop, hget, List.find?_cons]
    cases hname : klt_str_equals e.name name with
    | true => simp
    | false =>
      have h := ih (pre ++ [e])
      simp only [List.append_assoc, List.singleton_append, List.length_append,
        List.length_singleton] at h
      simpa using h

/-- The function `klt_native_find_function` is the first match of the whole vector. -/
theorem find_function_eq_find (native_functions : List klt_native_fnentry) (name : String) :
    klt_native_find_function native_functions name
      = native_functions.find? (fun e => klt_str_equals e.name name) := by
  simpa [klt_native_find_function] using find_function_loop_eq name native_functions []

/-- A miss of `klt_native_find_function` means that no entry carries the name. -/
theorem find_function_eq_none (native_functions : List klt_native_fnentry) (name : String) :
    klt_native_find_function native_functions name = none
      ↔ ∀ e ∈ native_functions, e.name ≠ name := by
  simp [find_function_eq_find, klt_str_equals]

/-- Registering is an append of the new record. -/
theorem register_fn_eq_append (native_functions : List klt_native_fnentry) (name : String)
    (requiredParams : Option (klt_vector String)) (fn : klt_native_fn) :
    klt_native_register_fn native_functions name requiredParams fn
      = native_functions ++ [⟨name, requiredParams, fn⟩] := rfl

/-- What `klt_native_find_function` returns after one registration: the old
answer when there was one, the new record for its own name otherwise. -/
theorem find_function_register_fn (native_functions : List klt_native_fnentry)
    (name : String) (requiredParams : Option (klt_vector String)) (fn : klt_native_fn)
    (query : String) :
    klt_native_find_function
        (klt_native_register_fn native_functions name requiredParams fn) query
      = match klt_native_find_function native_functions query with
        | some e => some e
        | none => if name = query then some ⟨name, requiredParams, fn⟩ else none := by
  rw [register_fn_eq_append, find_function_eq_find, find_function_eq_find, List.find?_append]
  cases List.find? (fun e => klt_str_equals e.name query) native_functions with
  | some e => rfl
  | none =>
    by_cases h : name = query <;> simp [List.find?_cons, klt_str_equals, h]

/-- The first match of a list, by index: it is the element at the smallest
index that satisfies the test. -/
theorem find_eq_some_iff_index {α : Type} (p : α → Bool) (l : List α) (a : α) :
    l.find? p = some a ↔
      ∃ i : Nat, l[i]? = some a ∧ p a = true
        ∧ ∀ j : Nat, j < i → ∀ e, l[j]? = some e → p e = false := by
  induction l with
  | nil => simp
  | cons x l ih =>
    rw [List.find?_cons]
    cases hx : p x with
    | true =>
      constructor
      · intro h
        cases h
        exact ⟨0, List.getElem?_cons_zero, hx, fun j hj => absurd hj (Nat.not_lt_zero j)⟩
      · rintro ⟨i, hget, -, hbefore⟩
        cases i with
        | zero =>
          simp only [List.getElem?_cons_zero] at hget
          exact hget
        | succ i =>
          have := hbefore 0 (Nat.succ_pos i) x List.getElem?_cons_zero
          rw [hx] at this
          cases this
    | false =>
      simp only []
      rw [ih]
      constructor
      · rintro ⟨i, hget, hpa, hbefore⟩
        refine ⟨i + 1, by simpa using hget, hpa, ?_⟩
        intro j hj e hje
        cases j with
        | zero =>
          simp only [List.getElem?_cons_zero, Option.some.injEq] at hje
          rw [← hje]
          exact hx
        | succ j =>
          exact hbefore j (Nat.lt_of_succ_lt_succ hj) e (by simpa using hje)
      · rintro ⟨i, hget, hpa, hbefore⟩
        cases i with
        | zero =>
          simp only [List.getElem?_cons_zero, Option.some.injEq] at hget
          rw [hget, hpa] at hx
          cases hx
        | succ i =>
          refine ⟨i, by simpa using hget, hpa, ?_⟩
          intro j hj e hje
          exact hbefore (j + 1) (Nat.succ_lt_succ hj) e (by simpa using hje)

/-- After a registration the lookup of the registered name succeeds with an
entry of that name: the earlier match when there was one, the new record
otherwise. -/
theorem register_fn_then_find_aux (native_functions : klt_vector klt_native_fnentry)
    (name : String) (requiredParams : Option (klt_vector String)) (fn : klt_native_fn) :
    ∃ entry,
      klt_native_find_function
          (klt_native_register_fn native_functions name requiredParams fn) name = some entry
      ∧ entry.name = name
      ∧ ((∀ e ∈ native_functions, e.name ≠ name) →
          entry.requiredParams = requiredParams ∧ entry.fn = fn)
      ∧ (∀ earlier, klt_native_find_function native_functions name = some earlier →
          entry = earlier) := by
  rw [find_function_register_fn]
  cases hfind : klt_native_find_function native_functions name with
  | none =>
    refine ⟨⟨name, requiredParams, fn⟩, by simp, rfl, fun _ => ⟨rfl, rfl⟩, ?_⟩
    intro earlier h
    cases h
  | some e0 =>
    refine ⟨e0, rfl, ?_, ?_, ?_⟩
    · rw [find_function_eq_find] at hfind
      have h := List.find?_some hfind
      simpa [klt_str_equals] using h
    · intro hfresh
      have hnone := (find_function_eq_none native_functions name).mpr hfresh
      rw [hfind] at hnone
      cases hnone
    · intro earlier h
      cases h
      rfl

/-- Claim C1, as amended: after `klt_native_register_fn(name, requiredParams, fn)`
the lookup of `name` always returns an entry (never not-found) whose name is
`name`; that entry carries the `requiredParams` (and the callable) just passed
when no entry named `name` was registered before the call, and otherwise it is
the entry the lookup returned before the call. -/
theorem klt_native_register_fn_then_find (native_functions : klt_vector klt_native_fnentry)
    (name : String) (requiredParams : Option (klt_vector String)) (fn : klt_native_fn) :
    ∃ entry,
      klt_native_find_function
          (klt_native_register_fn native_functions name requiredParams fn) name = some entry
      ∧ entry.name = name
      ∧ ((∀ e ∈ native_functions, e.name ≠ name) →
          entry.requiredParams = requiredParams ∧ entry.fn = fn)
      ∧ (∀ earlier, klt_native_find_function native_functions name = some earlier →
          entry = earlier) :=
  register_fn_then_find_aux native_functions name requiredParams fn

/-- Claim C1 at a concrete registry: the built-ins, then a fresh name. -/
theorem klt_native_register_fn_then_find_witness :
    ∃ entry,
      klt_native_find_function
          (klt_native_register_fn (klt_native_register_all_functions []) "exit"
            (some ["int"]) (klt_native_fn.external 7)) "exit" = some entry
      ∧ entry.name = "exit"
      ∧ ((∀ e ∈ klt_native_register_all_functions [], e.name ≠ "exit") →
          entry.requiredParams = some ["int"] ∧ entry.fn = klt_native_fn.external 7)
      ∧ (∀ earlier,
          klt_native_find_function (klt_native_register_all_functions []) "exit"
            = some earlier → entry = earlier) :=
  klt_native_register_fn_then_find (klt_native_register_all_functions []) "exit"
    (some ["int"]) (klt_native_fn.external 7)

/-- Claim C1 as stated fails: with the built-in `print` (signature `["any"]`)
already registered, registering `print` again with the signature `["string"]`
leaves the lookup of `print` on the first entry, whose `requiredParams` is not
the one just passed. -/
theorem klt_native_register_fn_find_shadowed :
    klt_native_find_function
        (klt_native_register_fn (klt_native_register_all_functions []) "print"
          (some ["string"]) (klt_native_fn.external 7)) "print"
      = some ⟨"print", some ["any"], klt_native_fn.klt_native_print⟩
    ∧ ¬ ∃ entry,
        klt_native_find_function
            (klt_native_register_fn (klt_native_register_all_functions []) "print"
              (some ["string"]) (klt_native_fn.external 7)) "print" = some entry
        ∧ entry.name = "print" ∧ entry.requiredParams = some ["string"] := by
  have h : klt_native_find_function
        (klt_native_register_fn (klt_native_register_all_functions []) "print"
          (some ["string"]) (klt_native_fn.external 7)) "print"
      = some ⟨"print", some ["any"], klt_native_fn.klt_native_print⟩ := by decide
  refine ⟨h, ?_⟩
  rintro ⟨entry, hfind, -, hparams⟩
  rw [h] at hfind
  cases hfind
  revert hparams
  decide

/-- Claim C2: `klt_native_find_function` returns not-found exactly when no
entry of the registry has the name; what it returns otherwise is the entry at
the smallest index whose name is the queried one; and after two registrations
under one name the lookup is still the one after the first registration (the
first-registered entry when the name was new). -/
theorem klt_native_find_function_first_match
    (native_functions : klt_vector klt_native_fnentry) (name : String) :
    (klt_native_find_function native_functions name = none
        ↔ ∀ e ∈ native_functions, e.name ≠ name)
    ∧ (∀ entry, klt_native_find_function native_functions name = some entry ↔
        ∃ i, klt_vector_get native_functions i = some entry ∧ entry.name = name
          ∧ ∀ j, j < i → ∀ e, klt_vector_get native_functions j = some e → e.name ≠ name)
    ∧ (∀ params₁ fn₁ params₂ fn₂,
        klt_native_find_function
            (klt_native_register_fn
              (klt_native_register_fn native_functions name params₁ fn₁) name params₂ fn₂)
            name
          = klt_native_find_function
              (klt_native_register_fn native_functions name params₁ fn₁) name
        ∧ ((∀ e ∈ native_functions, e.name ≠ name) →
            klt_native_find_function
                (klt_native_register_fn
                  (klt_native_register_fn native_functions name params₁ fn₁) name params₂ fn₂)
                name
              = some ⟨name, params₁, fn₁⟩)) := by
  refine ⟨find_function_eq_none native_functions name, ?_, ?_⟩
  · intro entry
    rw [find_function_eq_find, find_eq_some_iff_index]
    simp only [klt_vector_get, klt_str_equals, decide_eq_true_eq, decide_eq_false_iff_not, ne_eq]
  · intro params₁ fn₁ params₂ fn₂
    have hfirst : ∀ e, klt_native_find_function
        (klt_native_register_fn native_functions name params₁ fn₁) name = some e →
        klt_native_find_function
            (klt_native_register_fn
              (klt_native_register_fn native_functions name params₁ fn₁) name params₂ fn₂)
            name = some e := by
      intro e he
      rw [find_function_register_fn, he]
    obtain ⟨e, he, -, hfresh, -⟩ :=
      register_fn_then_find_aux native_functions name params₁ fn₁
    refine ⟨by rw [hfirst e he, he], ?_⟩
    intro hnew
    rw [hfirst e he]
    obtain ⟨hp, hf⟩ := hfresh hnew
    have hn : e.name = name := by
      have := he
      rw [find_function_eq_find] at this
      simpa [klt_str_equals] using List.find?_some this
    cases e
    simp_all

/-- Claim C2 at a concrete registry: two registrations of the new name `exit`
after the built-ins; the lookup returns the first of the two. -/
theorem klt_native_find_function_first_match_witness :
    klt_native_find_function
        (klt_native_register_fn
          (klt_native_register_fn (klt_native_register_all_functions []) "exit"
            (some ["int"]) (klt_native_fn.external 1))
          "exit" (some ["long"]) (klt_native_fn.external 2))
        "exit"
      = some ⟨"exit", some ["int"], klt_native_fn.external 1⟩ :=
  ((klt_native_find_function_first_match (klt_native_register_all_functions []) "exit").2.2
      (some ["int"]) (klt_native_fn.external 1) (some ["long"]) (klt_native_fn.external 2)).2
    (by decide)

/-- Claim C3: `klt_native_register_fn` only appends.  The new sequence is the
old one followed by the one record `{name, requiredParams, fn}`; every earlier
entry sits unchanged at its index; the size grows by one whether or not the
name was registered before; and every lookup that had a match before the call
returns that same entry after it. -/
theorem klt_native_register_fn_appends (native_functions : klt_vector klt_native_fnentry)
    (name : String) (requiredParams : Option (klt_vector String)) (fn : klt_native_fn) :
    klt_native_register_fn native_functions name requiredParams fn
        = native_functions ++ [⟨name, requiredParams, fn⟩]
    ∧ (klt_native_register_fn native_functions name requiredParams fn).length
        = native_functions.length + 1
    ∧ (∀ i, i < native_functions.length →
        klt_vector_get (klt_native_register_fn native_functions name requiredParams fn) i
          = klt_vector_get native_functions i)
    ∧ klt_vector_get (klt_native_register_fn native_functions name requiredParams fn)
        native_functions.length = some ⟨name, requiredParams, fn⟩
    ∧ (∀ query entry, klt_native_find_function native_functions query = some entry →
        klt_native_find_function
            (klt_native_register_fn native_functions name requiredParams fn) query
          = some entry) := by
  refine ⟨rfl, ?_, ?_, ?_, ?_⟩
  · simp [register_fn_eq_append]
  · intro i hi
    rw [register_fn_eq_append, klt_vector_get, klt_vector_get, List.getElem?_append_left hi]
  · rw [register_fn_eq_append, klt_vector_get,
      List.getElem?_append_right (Nat.le_refl _)]
    simp
  · intro query entry h
    rw [find_function_register_fn, h]

/-- Claim C3 at a concrete registry: `print` registered a second time. -/
theorem klt_native_register_fn_appends_witness :
    (klt_native_register_fn (klt_native_register_all_functions []) "print" none
        (klt_native_fn.external 3)).length = 4
    ∧ klt_native_find_function
        (klt_native_register_fn (klt_native_register_all_functions []) "print" none
          (klt_native_fn.external 3)) "print"
      = some ⟨"print", some ["any"], klt_native_fn.klt_native_print⟩ :=
  ⟨(klt_native_register_fn_appends (klt_native_register_all_functions []) "print" none
      (klt_native_fn.external 3)).2.1,
   (klt_native_register_fn_appends (klt_native_register_all_functions []) "print" none
      (klt_native_fn.external 3)).2.2.2.2 "print" _ (by decide)⟩

/-! ## Properties of the life cycle and of the loader -/

/-- The indexed loop of `klt_native_load_extern` over the directories `suf`
still to visit is the scan written over that list. -/
theorem load_extern_loop_eq (host : host_loader) (suf pre : List String) (st : loader_state) :
    klt_native_load_extern_loop host (pre ++ suf) suf.length pre.length st
      = scan_directories host pre.length suf st := by
  induction suf generalizing pre st with
  | nil => rfl
  | cons dir suf ih =>
    have hget : klt_vector_get (pre ++ dir :: suf) pre.length = some dir := by
      rw [klt_vector_get, List.getElem?_append_right (Nat.le_refl _)]
      simp
    simp only [List.length_cons, klt_native_load_extern_loop, hget, scan_directories]
    cases host.opendir dir with
    | none => rfl
    | some names =>
      have h := ih (pre ++ [dir]) ( klt_native_load_extern_readdir host pre.length dir names st)
      simp only [List.append_assoc, List.singleton_append, List.length_append,
        List.length_singleton] at h
      exact h

/-- The function `klt_native_load_extern` is the scan over the whole list. -/
theorem scan_directories_eq (host : host_loader) (dirs : List String)
    (native_functions : klt_vector klt_native_fnentry) :
    klt_native_load_extern host dirs native_functions
      = scan_directories host 0 dirs
          { native_functions := native_functions, events := [], loaded := [] } := by
  simpa [ klt_native_load_extern] using load_extern_loop_eq host dirs [] _

/-- The `readdir` loop takes the step `readdir_entry` for each name in turn. -/
theorem readdir_cons (host : host_loader) (i : Nat) (dir d_name : String)
    (later : List String) (st : loader_state) :
    klt_native_load_extern_readdir host i dir (d_name :: later) st
      = klt_native_load_extern_readdir host i dir later (readdir_entry host i dir d_name st) := by
  rw [klt_native_load_extern_readdir, readdir_entry]
  cases strstr d_name ".so" with
  | false => rfl
  | true =>
    simp only [if_true]
    cases host.dlopen (snprintf_ss 512 dir d_name) with
    | none => rfl
    | some library =>
      simp only []
      cases host.dlsym library.handle "KILATE_NATIVE_REGISTER" with
      | none => rfl
      | some extern_native_init => rfl

/-- Loading a library logs nothing by itself. -/
theorem dlopen_loads_events (library : dl_library) (st : loader_state) :
    (dlopen_loads library st).events = st.events := by
  unfold dlopen_loads
  split <;> rfl

/-- Loading a library, on the handles and the registry. -/
theorem dlopen_loads_registry (library : dl_library) (st : loader_state) :
    ((dlopen_loads library st).loaded, (dlopen_loads library st).native_functions)
      = if library.handle ∈ st.loaded then (st.loaded, st.native_functions)
        else (st.loaded ++ [library.handle], library.constructors st.native_functions) := by
  unfold dlopen_loads
  split <;> rfl

/-- One step of the `readdir` loop logs the outcome of the name when it is a
candidate, and nothing otherwise. -/
theorem readdir_entry_events (host : host_loader) (i : Nat) (dir d_name : String)
    (st : loader_state) :
    (readdir_entry host i dir d_name st).events
      = st.events ++ (if is_candidate d_name = true then [candidate_outcome host i dir d_name]
                      else []) := by
  unfold readdir_entry is_candidate candidate_outcome
  cases strstr d_name ".so" with
  | false => simp
  | true =>
    simp only [if_true]
    cases host.dlopen (snprintf_ss 512 dir d_name) with
    | none => rfl
    | some library =>
      simp only []
      cases host.dlsym library.handle "KILATE_NATIVE_REGISTER" with
      | none => simp only [dlopen_loads_events]
      | some extern_native_init => simp only [dlopen_loads_events]

/-- One step of the `readdir` loop, on the handles and the registry: the step
of the candidate, and nothing for a name that is no candidate. -/
theorem readdir_entry_registry (host : host_loader) (i : Nat) (dir d_name : String)
    (st : loader_state) :
    ((readdir_entry host i dir d_name st).loaded,
        (readdir_entry host i dir d_name st).native_functions)
      = if is_candidate d_name = true then
          candidate_step host dir d_name (st.loaded, st.native_functions)
        else (st.loaded, st.native_functions) := by
  unfold readdir_entry is_candidate candidate_step
  cases strstr d_name ".so" with
  | false => simp
  | true =>
    simp only [if_true]
    cases host.dlopen (snprintf_ss 512 dir d_name) with
    | none => rfl
    | some library =>
      simp only []
      have h := dlopen_loads_registry library st
      cases host.dlsym library.handle "KILATE_NATIVE_REGISTER" with
      | none => exact h
      | some extern_native_init =>
        simp only []
        by_cases hmem : library.handle ∈ st.loaded
        · simp only [hmem, if_true] at h ⊢
          rw [Prod.mk.injEq] at h ⊢
          exact ⟨h.1, by rw [h.2]⟩
        · simp only [hmem, if_false] at h ⊢
          rw [Prod.mk.injEq] at h ⊢
          exact ⟨h.1, by rw [h.2]⟩

/-- The log of one directory's `readdir` loop: one event for each candidate,
in listing order. -/
theorem readdir_outcomes (host : host_loader) (i : Nat) (dir : String)
    (names : List String) (st : loader_state) :
    ( klt_native_load_extern_readdir host i dir names st).events
      = st.events ++ (names.filter is_candidate).map (candidate_outcome host i dir) := by
  induction names generalizing st with
  | nil => simp [klt_native_load_extern_readdir]
  | cons d_name later ih =>
    rw [readdir_cons, ih, readdir_entry_events, List.filter_cons]
    by_cases hc : is_candidate d_name = true <;> simp [hc]

/-- The handles and the registry after one directory's `readdir` loop: every
candidate has taken its step, in listing order. -/
theorem readdir_registry (host : host_loader) (i : Nat) (dir : String)
    (names : List String) (st : loader_state) :
    (( klt_native_load_extern_readdir host i dir names st).loaded,
        ( klt_native_load_extern_readdir host i dir names st).native_functions)
      = ((names.filter is_candidate).map (fun d_name => (dir, d_name))).foldl
          (fun s candidate => candidate_step host candidate.1 candidate.2 s)
          (st.loaded, st.native_functions) := by
  induction names generalizing st with
  | nil => simp [klt_native_load_extern_readdir]
  | cons d_name later ih =>
    rw [readdir_cons, ih, readdir_entry_registry, List.filter_cons]
    by_cases hc : is_candidate d_name = true <;> simp [hc]

/-- The log of a scan in which every directory opens. -/
theorem scan_directories_outcomes (host : host_loader) (i : Nat) (dirs : List String)
    (st : loader_state) (hopen : ∀ dir ∈ dirs, (host.opendir dir).isSome = true) :
    (scan_directories host i dirs st).events = st.events ++ expected_outcomes host i dirs := by
  induction dirs generalizing i st with
  | nil => simp [scan_directories, expected_outcomes]
  | cons dir later ih =>
    have hdir := hopen dir (List.mem_cons_self _ _)
    have hlater : ∀ d ∈ later, (host.opendir d).isSome = true :=
      fun d hd => hopen d (List.mem_cons_of_mem _ hd)
    simp only [scan_directories, expected_outcomes]
    cases hnames : host.opendir dir with
    | none => simp [hnames] at hdir
    | some names =>
      simp only [Option.getD_some]
      rw [ih (i + 1) _ hlater, readdir_outcomes, List.append_assoc]

/-- The handles and the registry after a scan in which every directory opens:
every candidate of every directory has taken its step, in order. -/
theorem scan_directories_registry (host : host_loader) (i : Nat) (dirs : List String)
    (st : loader_state) (hopen : ∀ dir ∈ dirs, (host.opendir dir).isSome = true) :
    ((scan_directories host i dirs st).loaded, (scan_directories host i dirs st).native_functions)
      = (matching_candidates host dirs).foldl
          (fun s candidate => candidate_step host candidate.1 candidate.2 s)
          (st.loaded, st.native_functions) := by
  induction dirs generalizing i st with
  | nil => simp [scan_directories, matching_candidates]
  | cons dir later ih =>
    have hdir := hopen dir (List.mem_cons_self _ _)
    have hlater : ∀ d ∈ later, (host.opendir d).isSome = true :=
      fun d hd => hopen d (List.mem_cons_of_mem _ hd)
    simp only [scan_directories, matching_candidates]
    cases hnames : host.opendir dir with
    | none => simp [hnames] at hdir
    | some names =>
      simp only [Option.getD_some]
      rw [ih (i + 1) _ hlater, readdir_registry, List.foldl_append]

/-- Filtering the candidates before mapping them, or their images after. -/
theorem map_filter_candidates {α β : Type} (cand keep : α → Bool) (g g' : α → β)
    (P : β → Bool) (l : List α)
    (hkeep : ∀ a, cand a = true → keep a = P (g a))
    (hg : ∀ a, cand a = true → keep a = true → g' a = g a) :
    (l.filter (fun a => cand a && keep a)).map g' = ((l.filter cand).map g).filter P := by
  induction l with
  | nil => rfl
  | cons a l ih =>
    rw [List.filter_cons, List.filter_cons]
    cases hc : cand a with
    | false => simpa using ih
    | true =>
      have hk := hkeep a hc
      cases hka : keep a with
      | false =>
        rw [hka] at hk
        simp [List.filter_cons, ← hk, ih]
      | true =>
        rw [hka] at hk
        simp [List.filter_cons, ← hk, ih, hg a hc hka]

/-- Cutting the listings down does not change which directories open. -/
theorem filter_listings_opens (host : host_loader) (keep : String → String → Bool)
    (dirs : List String) (hopen : ∀ dir ∈ dirs, (host.opendir dir).isSome = true) :
    ∀ dir ∈ dirs, ((filter_listings host keep).opendir dir).isSome = true := by
  intro dir hdir
  have h := hopen dir hdir
  simp only [filter_listings, Option.isSome_map']
  exact h

/-- The listing of a directory of the cut-down host. -/
theorem filter_listings_names (host : host_loader) (keep : String → String → Bool)
    (dir : String) :
    ((filter_listings host keep).opendir dir).getD []
      = ((host.opendir dir).getD []).filter (keep dir) := by
  simp only [filter_listings]
  cases host.opendir dir <;> rfl

/-- The log expected of the cut-down host is the expected log without the
events of the removed candidates. -/
theorem expected_outcomes_filter (host : host_loader) (keep : String → String → Bool)
    (P : loader_event → Bool) (i : Nat) (dirs : List String)
    (hkeep : ∀ i dir d_name, is_candidate d_name = true →
      keep dir d_name = P (candidate_outcome host i dir d_name)) :
    expected_outcomes (filter_listings host keep) i dirs
      = (expected_outcomes host i dirs).filter P := by
  induction dirs generalizing i with
  | nil => rfl
  | cons dir later ih =>
    have hsame : candidate_outcome (filter_listings host keep) i dir
        = candidate_outcome host i dir := rfl
    simp only [expected_outcomes, filter_listings_names, List.filter_filter, List.filter_append,
      ih, hsame]
    rw [map_filter_candidates is_candidate (keep dir) (candidate_outcome host i dir)
      (candidate_outcome host i dir) P _ (fun a ha => hkeep i dir a ha) (fun _ _ _ => rfl)]

/-- The candidates of the cut-down host are the candidates that are kept. -/
theorem matching_candidates_filter (host : host_loader) (keep : String → String → Bool)
    (dirs : List String) :
    matching_candidates (filter_listings host keep) dirs
      = (matching_candidates host dirs).filter (fun c => keep c.1 c.2) := by
  induction dirs with
  | nil => rfl
  | cons dir later ih =>
    simp only [matching_candidates, filter_listings_names, List.filter_filter,
      List.filter_append, ih]
    rw [map_filter_candidates is_candidate (keep dir) (fun d_name => (dir, d_name))
      (fun d_name => (dir, d_name)) (fun c => keep c.1 c.2) _ (fun _ _ => rfl)
      (fun _ _ _ => rfl)]

/-- The calls of entry points are the events of the expected log that are
calls. -/
theorem expected_invocations_eq (host : host_loader) (i : Nat) (dirs : List String) :
    expected_invocations host i dirs
      = (expected_outcomes host i dirs).filter loader_event.is_invoked := by
  induction dirs generalizing i with
  | nil => rfl
  | cons dir later ih =>
    simp only [expected_invocations, expected_outcomes, List.filter_append, ih]
    rw [map_filter_candidates is_candidate (candidate_succeeds host dir)
      (candidate_outcome host i dir)]
    · intro d_name _
      unfold candidate_succeeds candidate_outcome
      cases host.dlopen (snprintf_ss 512 dir d_name) with
      | none => rfl
      | some library =>
        simp only []
        cases host.dlsym library.handle "KILATE_NATIVE_REGISTER" <;> rfl
    · intro d_name _ hs
      unfold candidate_succeeds at hs
      unfold candidate_outcome
      cases hopen : host.dlopen (snprintf_ss 512 dir d_name) with
      | none => simp [hopen] at hs
      | some library =>
        simp only [hopen] at hs ⊢
        cases hsym : host.dlsym library.handle "KILATE_NATIVE_REGISTER" with
        | none => simp [hsym] at hs
        | some extern_native_init => rfl

/-- Steps that change nothing may be left out of a fold. -/
theorem foldl_filter_of_fixed {σ γ : Type} (f : σ → γ → σ) (keep : γ → Bool) (l : List γ)
    (s : σ) (hfixed : ∀ c ∈ l, keep c = false → ∀ s, f s c = s) :
    (l.filter keep).foldl f s = l.foldl f s := by
  induction l generalizing s with
  | nil => rfl
  | cons c l ih =>
    have hl : ∀ c' ∈ l, keep c' = false → ∀ s, f s c' = s :=
      fun c' hc' => hfixed c' (List.mem_cons_of_mem _ hc')
    rw [List.filter_cons]
    cases hk : keep c with
    | true => simpa using ih (f s c) hl
    | false =>
      simp only [Bool.false_eq_true, if_false, List.foldl_cons,
        hfixed c (List.mem_cons_self _ _) hk s]
      exact ih s hl

/-- A step of a candidate keeps two states of the fold in agreement on the
registry and on which libraries with the entry point are loaded, when the
libraries without the entry point have no initialiser that registers. -/
theorem candidate_step_agree (host : host_loader)
    (hctor : ∀ path library, host.dlopen path = some library →
      host.dlsym library.handle "KILATE_NATIVE_REGISTER" = none →
      ∀ fns, library.constructors fns = fns)
    (dir d_name : String) (s s' : List Nat × klt_vector klt_native_fnentry)
    (hreg : s.2 = s'.2)
    (hmem : ∀ handle, (host.dlsym handle "KILATE_NATIVE_REGISTER").isSome = true →
      (handle ∈ s.1 ↔ handle ∈ s'.1)) :
    (candidate_step host dir d_name s).2 = (candidate_step host dir d_name s').2
    ∧ ∀ handle, (host.dlsym handle "KILATE_NATIVE_REGISTER").isSome = true →
        (handle ∈ (candidate_step host dir d_name s).1
          ↔ handle ∈ (candidate_step host dir d_name s').1) := by
  obtain ⟨l, r⟩ := s
  obtain ⟨l', r'⟩ := s'
  simp only at hreg hmem
  subst hreg
  unfold candidate_step
  cases hopen : host.dlopen (snprintf_ss 512 dir d_name) with
  | none => exact ⟨rfl, hmem⟩
  | some library =>
    simp only []
    cases hsym : host.dlsym library.handle "KILATE_NATIVE_REGISTER" with
    | none =>
      have hid := hctor _ library hopen hsym
      have hne : ∀ handle, (host.dlsym handle "KILATE_NATIVE_REGISTER").isSome = true →
          handle ≠ library.handle := by
        intro handle hgood heq
        rw [heq, hsym] at hgood
        cases hgood
      simp only []
      by_cases m₁ : library.handle ∈ l <;> by_cases m₂ : library.handle ∈ l'
      all_goals simp only [m₁, m₂, if_true, if_false, hid, true_and]
      all_goals intro handle hgood
      all_goals simp [hmem handle hgood, hne handle hgood]
    | some extern_native_init =>
      have hboth := hmem library.handle (by rw [hsym]; rfl)
      simp only []
      by_cases m₁ : library.handle ∈ l
      · have m₂ := hboth.mp m₁
        simp only [m₁, m₂, if_true, true_and]
        exact hmem
      · have m₂ : library.handle ∉ l' := fun h => m₁ (hboth.mpr h)
        simp only [m₁, m₂, if_false, true_and]
        intro handle hgood
        simp [hmem handle hgood]

/-- The step of a candidate that loads but has no entry point, or does not
load, leaves the registry alone and loads no library with the entry point,
when the libraries without the entry point have no initialiser that
registers. -/
theorem candidate_step_of_fails (host : host_loader)
    (hctor : ∀ path library, host.dlopen path = some library →
      host.dlsym library.handle "KILATE_NATIVE_REGISTER" = none →
      ∀ fns, library.constructors fns = fns)
    (dir d_name : String) (s : List Nat × klt_vector klt_native_fnentry)
    (hfails : candidate_succeeds host dir d_name = false) :
    (candidate_step host dir d_name s).2 = s.2
    ∧ ∀ handle, (host.dlsym handle "KILATE_NATIVE_REGISTER").isSome = true →
        (handle ∈ (candidate_step host dir d_name s).1 ↔ handle ∈ s.1) := by
  obtain ⟨l, r⟩ := s
  unfold candidate_succeeds at hfails
  unfold candidate_step
  cases hopen : host.dlopen (snprintf_ss 512 dir d_name) with
  | none => exact ⟨rfl, fun _ _ => Iff.rfl⟩
  | some library =>
    simp only [hopen] at hfails
    have hsym : host.dlsym library.handle "KILATE_NATIVE_REGISTER" = none := by
      cases h : host.dlsym library.handle "KILATE_NATIVE_REGISTER" with
      | none => rfl
      | some _ => simp [h] at hfails
    have hid := hctor _ library hopen hsym
    have hne : ∀ handle, (host.dlsym handle "KILATE_NATIVE_REGISTER").isSome = true →
        handle ≠ library.handle := by
      intro handle hgood heq
      rw [heq, hsym] at hgood
      cases hgood
    simp only [hsym]
    by_cases m₁ : library.handle ∈ l
    · simp only [m₁, if_true, true_and]
      exact fun _ _ => trivial
    · simp only [m₁, if_false, hid, true_and]
      intro handle hgood
      simp [hne handle hgood]

/-- The fold over all candidates and the fold over the succeeding ones stay in
agreement, when the libraries without the entry point have no initialiser
that registers. -/
theorem foldl_without_failing (host : host_loader)
    (hctor : ∀ path library, host.dlopen path = some library →
      host.dlsym library.handle "KILATE_NATIVE_REGISTER" = none →
      ∀ fns, library.constructors fns = fns)
    (l : List (String × String)) (s s' : List Nat × klt_vector klt_native_fnentry)
    (hreg : s.2 = s'.2)
    (hmem : ∀ handle, (host.dlsym handle "KILATE_NATIVE_REGISTER").isSome = true →
      (handle ∈ s.1 ↔ handle ∈ s'.1)) :
    (l.foldl (fun s c => candidate_step host c.1 c.2 s) s).2
      = ((l.filter (fun c => !candidate_fails host c.1 c.2)).foldl
          (fun s c => candidate_step host c.1 c.2 s) s').2 := by
  induction l generalizing s s' with
  | nil => exact hreg
  | cons c l ih =>
    rw [List.filter_cons, List.foldl_cons]
    cases hk : candidate_fails host c.1 c.2 with
    | false =>
      simp only [Bool.not_false, if_true, List.foldl_cons]
      obtain ⟨h₁, h₂⟩ := candidate_step_agree host hctor c.1 c.2 s s' hreg hmem
      exact ih _ _ h₁ h₂
    | true =>
      simp only [Bool.not_true, Bool.false_eq_true, if_false]
      have hfails : candidate_succeeds host c.1 c.2 = false := by
        unfold candidate_fails at hk
        cases hs : candidate_succeeds host c.1 c.2 with
        | false => rfl
        | true => simp [hs] at hk
      obtain ⟨h₁, h₂⟩ := candidate_step_of_fails host hctor c.1 c.2 s hfails
      exact ih _ _ (h₁.trans hreg)
        (fun handle hgood => (h₂ handle hgood).trans (hmem handle hgood))

/-- The step of a candidate that does not load changes nothing. -/
theorem candidate_step_of_load_failure (host : host_loader) (dir d_name : String)
    (s : List Nat × klt_vector klt_native_fnentry)
    (hfails : candidate_fails_to_load host dir d_name = true) :
    candidate_step host dir d_name s = s := by
  unfold candidate_fails_to_load at hfails
  unfold candidate_step
  cases hopen : host.dlopen (snprintf_ss 512 dir d_name) with
  | none => rfl
  | some library => simp [hopen] at hfails

/-- Claim C4: whatever the registry held, `klt_native_end()` followed by
`klt_native_init()` starts from a new empty sequence.  The state after the
init does not depend on what was registered before the teardown (it is the
state an init of a fresh process reaches), and with no plugin directory
configured the registry holds exactly the built-ins `print`, `system`, `sleep`,
in that order, with the signatures `["any"]`, `["string"]`, `["long"]`. -/
theorem klt_native_end_then_init (host : host_loader)
    (native_functions : klt_vector klt_native_fnentry) :
    ∃ g, klt_native_end { native_functions := some native_functions } = some g
      ∧ g.native_functions = none
      ∧ (klt_native_init host [] g).1.native_functions
          = some [⟨"print", some ["any"], klt_native_fn.klt_native_print⟩,
                  ⟨"system", some ["string"], klt_native_fn.klt_native_system⟩,
                  ⟨"sleep", some ["long"], klt_native_fn.klt_native_sleep⟩]
      ∧ (∀ libs_native_directories,
          klt_native_init host libs_native_directories g
            = klt_native_init host libs_native_directories { native_functions := none })
      ∧ (∀ libs_native_directories,
          (klt_native_init host libs_native_directories g).1.native_functions
            = some ( klt_native_load_extern host libs_native_directories
                (klt_native_register_all_functions [])).native_functions) :=
  ⟨{ native_functions := none }, rfl, rfl, rfl, fun _ => rfl, fun _ => rfl⟩

/-- Claim C7, as amended: when every configured directory opens, no candidate
halts the scan, and the registry after `klt_native_load_extern` is the one in
which every candidate of every directory has taken its step once, in order.
A candidate that fails to load registers nothing.  A candidate that loads but
lacks `KILATE_NATIVE_REGISTER` has no entry point called, and registers only
what its own initialisers register while `dlopen` loads it.  Every other
candidate is loaded and has its entry point called exactly once.  So the
registry and the log are those of the scan with the candidates that fail to
load removed; and when no library without the entry point has an initialiser
that registers, they are those of the scan with all failing candidates
removed. -/
theorem klt_native_load_extern_skips_failing (host : host_loader)
    (libs_native_directories : klt_vector String)
    (native_functions : klt_vector klt_native_fnentry)
    (hopen : ∀ dir ∈ libs_native_directories, (host.opendir dir).isSome = true) :
    ( klt_native_load_extern host libs_native_directories native_functions).native_functions
        = expected_registry host libs_native_directories native_functions
    ∧ ( klt_native_load_extern host libs_native_directories native_functions).events
        = expected_outcomes host 0 libs_native_directories
    ∧ ( klt_native_load_extern host libs_native_directories native_functions).events.filter
          loader_event.is_invoked
        = expected_invocations host 0 libs_native_directories
    ∧ ( klt_native_load_extern host libs_native_directories native_functions).native_functions
        = ( klt_native_load_extern (without_load_failures host) libs_native_directories
            native_functions).native_functions
    ∧ ( klt_native_load_extern host libs_native_directories native_functions).events.filter
          (fun ev => !ev.is_load_failed)
        = ( klt_native_load_extern (without_load_failures host) libs_native_directories
            native_functions).events
    ∧ ((∀ path library, host.dlopen path = some library →
          host.dlsym library.handle "KILATE_NATIVE_REGISTER" = none →
          ∀ fns, library.constructors fns = fns) →
        ( klt_native_load_extern host libs_native_directories native_functions).native_functions
            = ( klt_native_load_extern (without_failing_candidates host)
                libs_native_directories native_functions).native_functions
        ∧ ( klt_native_load_extern host libs_native_directories
              native_functions).events.filter loader_event.is_invoked
            = ( klt_native_load_extern (without_failing_candidates host)
                libs_native_directories native_functions).events) := by
  have hregistry : ∀ (h : host_loader),
      (∀ dir ∈ libs_native_directories, (h.opendir dir).isSome = true) →
      ( klt_native_load_extern h libs_native_directories native_functions).native_functions
        = expected_registry h libs_native_directories native_functions := by
    intro h hh
    rw [scan_directories_eq]
    exact congrArg Prod.snd (scan_directories_registry h 0 libs_native_directories _ hh)
  have hevents : ∀ (h : host_loader),
      (∀ dir ∈ libs_native_directories, (h.opendir dir).isSome = true) →
      ( klt_native_load_extern h libs_native_directories native_functions).events
        = expected_outcomes h 0 libs_native_directories := by
    intro h hh
    rw [scan_directories_eq, scan_directories_outcomes h 0 libs_native_directories _ hh]
    simp
  have hloads : without_load_failures host
      = filter_listings host (fun dir d_name => !candidate_fails_to_load host dir d_name) := rfl
  have hfails : without_failing_candidates host
      = filter_listings host (fun dir d_name => !candidate_fails host dir d_name) := rfl
  refine ⟨hregistry host hopen, hevents host hopen, ?_, ?_, ?_, ?_⟩
  · rw [hevents host hopen, expected_invocations_eq]
  · rw [hregistry host hopen, hloads, hregistry _ (filter_listings_opens host _ _ hopen)]
    unfold expected_registry
    rw [matching_candidates_filter]
    exact congrArg Prod.snd
      (foldl_filter_of_fixed (fun s c => candidate_step host c.1 c.2 s)
        (fun c => !candidate_fails_to_load host c.1 c.2) (matching_candidates host
          libs_native_directories) ([], native_functions)
        (fun c _ hc s => candidate_step_of_load_failure host c.1 c.2 s (by simpa using hc))).symm
  · rw [hevents host hopen, hloads, hevents _ (filter_listings_opens host _ _ hopen)]
    refine (expected_outcomes_filter host _ (fun ev => !ev.is_load_failed) 0 _ ?_).symm
    intro i dir d_name hcand
    unfold candidate_fails_to_load candidate_outcome
    rw [hcand]
    cases host.dlopen (snprintf_ss 512 dir d_name) with
    | none => rfl
    | some library =>
      simp only []
      cases host.dlsym library.handle "KILATE_NATIVE_REGISTER" <;> rfl
  · intro hctor
    constructor
    · rw [hregistry host hopen, hfails, hregistry _ (filter_listings_opens host _ _ hopen)]
      unfold expected_registry
      rw [matching_candidates_filter]
      exact foldl_without_failing host hctor _ _ _ rfl (fun _ _ => Iff.rfl)
    · rw [hevents host hopen, hfails, hevents _ (filter_listings_opens host _ _ hopen)]
      refine (expected_outcomes_filter host _ loader_event.is_invoked 0 _ ?_).symm
      intro i dir d_name hcand
      unfold candidate_fails candidate_succeeds candidate_outcome
      rw [hcand]
      cases host.dlopen (snprintf_ss 512 dir d_name) with
      | none => rfl
      | some library =>
        simp only []
        cases host.dlsym library.handle "KILATE_NATIVE_REGISTER" <;> rfl

/-- Claim C7 on the example host: `a/bad.so` does not load and `b/nosym.so`
has no entry point, yet the scan goes on and registers `x`, `y` and `z`,
calling each of the three entry points once. -/
theorem klt_native_load_extern_skips_failing_witness :
    (∀ dir ∈ ["a/", "b/"], (example_host.opendir dir).isSome = true)
    ∧ ( klt_native_load_extern example_host ["a/", "b/"] []).native_functions
        = [⟨"x", none, klt_native_fn.external 1⟩, ⟨"y", none, klt_native_fn.external 2⟩,
           ⟨"z", none, klt_native_fn.external 4⟩]
    ∧ ( klt_native_load_extern example_host ["a/", "b/"] []).events
        = [loader_event.invoked 0 "a/x.so", loader_event.load_failed 0 "a/bad.so",
           loader_event.invoked 0 "a/y.so", loader_event.symbol_missing 1 "b/nosym.so",
           loader_event.invoked 1 "b/z.so"] :=
  ⟨by decide,
   (klt_native_load_extern_skips_failing example_host ["a/", "b/"] [] (by decide)).1.trans
     (by decide),
   (klt_native_load_extern_skips_failing example_host ["a/", "b/"] [] (by decide)).2.1.trans
     (by decide)⟩

/-- Claim C7 as stated fails: on a host whose directories all open, the library
`b/nosym.so` lacks `KILATE_NATIVE_REGISTER`, so it is a failing candidate, yet
its initialiser, run by `dlopen`, registers `ctor`; the registry after the
scan holds that entry and is not the registry of the scan with the failing
candidates removed. -/
theorem klt_native_load_extern_constructor_registers :
    (∀ dir ∈ ["a/", "b/"], (constructor_host.opendir dir).isSome = true)
    ∧ candidate_fails constructor_host "b/" "nosym.so" = true
    ∧ ( klt_native_load_extern constructor_host ["a/", "b/"] []).native_functions
        = [⟨"x", none, klt_native_fn.external 1⟩, ⟨"y", none, klt_native_fn.external 2⟩,
           ⟨"ctor", none, klt_native_fn.external 3⟩, ⟨"z", none, klt_native_fn.external 4⟩]
    ∧ ( klt_native_load_extern (without_failing_candidates constructor_host) ["a/", "b/"]
          []).native_functions
        = [⟨"x", none, klt_native_fn.external 1⟩, ⟨"y", none, klt_native_fn.external 2⟩,
           ⟨"z", none, klt_native_fn.external 4⟩]
    ∧ ( klt_native_load_extern constructor_host ["a/", "b/"] []).native_functions
        ≠ ( klt_native_load_extern (without_failing_candidates constructor_host) ["a/", "b/"]
            []).native_functions := by
  decide

/-- A cast to a signed type keeps a value that fits it. -/
theorem int_of_intptr_of_fits (v : Int) (hlo : -2 ^ 31 ≤ v) (hhi : v < 2 ^ 31) :
    int_of_intptr v = v := by
  unfold int_of_intptr to_signed
  have h : (v + 2 ^ (32 - 1)) % 2 ^ 32 = v + 2 ^ (32 - 1) := by
    apply Int.emod_eq_of_lt
    · norm_num
      omega
    · norm_num
      omega
  rw [h]
  omega

/-- The print loop over literal parameters `suf` appends their payloads. -/
theorem print_loop_literals (printf_f : Nat → String) (env : klt_environment)
    (suf pre : List klt_node_fnparam) (stdout : String)
    (hlit : ∀ p ∈ suf, p.type ≠ NODE_VALUE_TYPE_VAR) :
    klt_native_print_loop printf_f ⟨pre ++ suf, env⟩ suf.length pre.length stdout
      = some (stdout ++ concat_payloads suf) := by
  induction suf generalizing pre stdout with
  | nil => simp [klt_native_print_loop, concat_payloads]
  | cons param suf ih =>
    have hget : klt_vector_get (pre ++ param :: suf) pre.length = some param := by
      rw [klt_vector_get, List.getElem?_append_right (Nat.le_refl _)]
      simp
    have hparam : param.type ≠ NODE_VALUE_TYPE_VAR := hlit param (List.mem_cons_self _ _)
    have hlater : ∀ p ∈ suf, p.type ≠ NODE_VALUE_TYPE_VAR :=
      fun p hp => hlit p (List.mem_cons_of_mem _ hp)
    simp only [List.length_cons, klt_native_print_loop, hget, klt_native_print_param, hparam,
      if_false]
    have h := ih (pre ++ [param]) (stdout ++ param.value) hlater
    simp only [List.append_assoc, List.singleton_append, List.length_append,
      List.length_singleton] at h
    rw [h, concat_payloads, String.append_assoc]

/-- Claim C5: for literal parameters `klt_native_print` writes exactly the
payload texts in order, with nothing between them and nothing after them, and
returns null. -/
theorem klt_native_print_literals (printf_f : Nat → String) (data : klt_native_fndata)
    (stdout : String) (hlit : ∀ p ∈ data.params, p.type ≠ NODE_VALUE_TYPE_VAR) :
    klt_native_print printf_f data stdout
      = some (none, stdout ++ concat_payloads data.params) := by
  have h := print_loop_literals printf_f data.env data.params [] stdout hlit
  simp only [List.nil_append, List.length_nil] at h
  simp only [klt_native_print, h]

/-- Claim C5 on the literals `"Hello, "` and `"World"`: the output is exactly
`Hello, World`. -/
theorem klt_native_print_literals_witness :
    (∀ p ∈ [(⟨NODE_VALUE_TYPE_STRING, "Hello, ", 4096⟩ : klt_node_fnparam),
            ⟨NODE_VALUE_TYPE_STRING, "World", 8192⟩], p.type ≠ NODE_VALUE_TYPE_VAR)
    ∧ klt_native_print (fun _ => "0.000000")
        ⟨[⟨NODE_VALUE_TYPE_STRING, "Hello, ", 4096⟩, ⟨NODE_VALUE_TYPE_STRING, "World", 8192⟩],
          example_env⟩ ""
      = some (none, "Hello, World") :=
  ⟨by decide,
   (klt_native_print_literals (fun _ => "0.000000")
      ⟨[⟨NODE_VALUE_TYPE_STRING, "Hello, ", 4096⟩, ⟨NODE_VALUE_TYPE_STRING, "World", 8192⟩],
        example_env⟩ "" (by decide)).trans (by decide)⟩

/-- Claim C6: with a single variable-reference parameter naming a variable
bound to an integer-kind value `v` in the 32-bit signed range,
`klt_native_print` writes exactly the decimal representation of `v` (not the
name, nothing before or after) and returns null. -/
theorem klt_native_print_int_variable (printf_f : Nat → String) (env : klt_environment)
    (param : klt_node_fnparam) (var : klt_node) (v : Int) (stdout : String)
    (hparam : param.type = NODE_VALUE_TYPE_VAR)
    (hbound : klt_environment_getvar env param.value = some var)
    (hkind : var.vardec_n.var_value_type = NODE_VALUE_TYPE_INT)
    (hvalue : var.vardec_n.var_value.bits = v)
    (hlo : -2 ^ 31 ≤ v) (hhi : v < 2 ^ 31) :
    klt_native_print printf_f ⟨[param], env⟩ stdout = some (none, stdout ++ printf_d v) := by
  have hget : klt_vector_get [param] 0 = some param := rfl
  simp only [klt_native_print, List.length_singleton, klt_native_print_loop, hget,
    klt_native_print_param, hparam, if_true, hbound, hkind, hvalue,
    int_of_intptr_of_fits v hlo hhi]

/-- Claim C6 on a variable bound to the integer 42: the output is exactly `42`. -/
theorem klt_native_print_int_variable_witness :
    klt_native_print (fun _ => "0.000000") ⟨[⟨NODE_VALUE_TYPE_VAR, "answer", 4096⟩], example_env⟩ ""
      = some (none, "42") :=
  (klt_native_print_int_variable (fun _ => "0.000000") example_env
      ⟨NODE_VALUE_TYPE_VAR, "answer", 4096⟩
      ⟨⟨NODE_VALUE_TYPE_INT, ⟨42, klt_pointee.nothing⟩⟩⟩ 42 "" rfl (by decide) rfl rfl
      (by decide) (by decide)).trans (by decide)

/-- Claim C9: `klt_native_system` with exactly one parameter.  A literal runs
one host command whose text is the raw payload; a variable reference resolving
to a string runs one host command whose text is the resolved string; a
variable reference resolving to any other kind runs no command; and whenever
the call returns, it returns null, whatever status the host reports. -/
theorem klt_native_system_one_param (system : String → Int) (env : klt_environment)
    (param : klt_node_fnparam) (commands : List host_command) :
    (param.type ≠ NODE_VALUE_TYPE_VAR →
      klt_native_system system ⟨[param], env⟩ commands
        = some (none, commands ++ [⟨param.value, system param.value⟩]))
    ∧ (∀ var s, param.type = NODE_VALUE_TYPE_VAR →
        klt_environment_getvar env param.value = some var →
        var.vardec_n.var_value_type = NODE_VALUE_TYPE_STRING →
        var.vardec_n.var_value.pointee = klt_pointee.text s →
        klt_native_system system ⟨[param], env⟩ commands
          = some (none, commands ++ [⟨s, system s⟩]))
    ∧ (∀ var, param.type = NODE_VALUE_TYPE_VAR →
        klt_environment_getvar env param.value = some var →
        var.vardec_n.var_value_type ≠ NODE_VALUE_TYPE_STRING →
        klt_native_system system ⟨[param], env⟩ commands = some (none, commands))
    ∧ (∀ result, klt_native_system system ⟨[param], env⟩ commands = some result →
        result.1 = none) := by
  have hget : klt_vector_get [param] 0 = some param := rfl
  refine ⟨?_, ?_, ?_, ?_⟩
  · intro hlit
    simp only [klt_native_system, List.length_singleton, klt_native_system_loop, hget,
      klt_native_system_param, hlit, if_false]
  · intro var s hparam hbound hkind htext
    simp only [klt_native_system, List.length_singleton, klt_native_system_loop, hget,
      klt_native_system_param, hparam, if_true, hbound, hkind, htext]
  · intro var hparam hbound hkind
    simp only [klt_native_system, List.length_singleton, klt_native_system_loop, hget,
      klt_native_system_param, hparam, if_true, hbound]
  · intro result h
    unfold klt_native_system at h
    split at h
    · cases h
    · cases h
      rfl

/-- Claim C9 on the literal `true` and on the variable `cmd`: one command
`true` each, and null, with a host that reports status 1. -/
theorem klt_native_system_one_param_witness :
    klt_native_system (fun _ => 1) ⟨[⟨NODE_VALUE_TYPE_STRING, "true", 4096⟩], example_env⟩ []
        = some (none, [⟨"true", 1⟩])
    ∧ klt_native_system (fun _ => 1) ⟨[⟨NODE_VALUE_TYPE_VAR, "cmd", 4096⟩], example_env⟩ []
        = some (none, [⟨"true", 1⟩])
    ∧ klt_native_system (fun _ => 1) ⟨[⟨NODE_VALUE_TYPE_VAR, "answer", 4096⟩], example_env⟩ []
        = some (none, []) :=
  ⟨(klt_native_system_one_param (fun _ => 1) example_env ⟨NODE_VALUE_TYPE_STRING, "true", 4096⟩
      []).1 (by decide),
   (klt_native_system_one_param (fun _ => 1) example_env ⟨NODE_VALUE_TYPE_VAR, "cmd", 4096⟩
      []).2.1 ⟨⟨NODE_VALUE_TYPE_STRING, ⟨140737488, klt_pointee.text "true"⟩⟩⟩ "true" rfl
      (by decide) rfl rfl,
   (klt_native_system_one_param (fun _ => 1) example_env ⟨NODE_VALUE_TYPE_VAR, "answer", 4096⟩
      []).2.2.1 ⟨⟨NODE_VALUE_TYPE_INT, ⟨42, klt_pointee.nothing⟩⟩⟩ rfl (by decide)
      (by decide)⟩

/-- Claim C10: `klt_native_sleep` with one parameter never uses the resolved
value of a variable as the duration.  The call ends with one suspension of
`klt_str_to_int` of the raw payload text (the name, for a variable reference)
and returns null; this is the only suspension for a literal and for a
variable reference resolving to the integer kind; for a variable reference
resolving to another kind it comes after one more suspension, of the payload
pointer read as an `int`.  The outcome depends on the resolved node through
its kind only. -/
theorem klt_native_sleep_suspensions (klt_str_to_int : String → Int) (env : klt_environment)
    (param : klt_node_fnparam) (suspensions : List Int) :
    (param.type ≠ NODE_VALUE_TYPE_VAR →
      klt_native_sleep klt_str_to_int ⟨[param], env⟩ suspensions
        = some (none, suspensions ++ [klt_str_to_int param.value]))
    ∧ (∀ var, param.type = NODE_VALUE_TYPE_VAR →
        klt_environment_getvar env param.value = some var →
        var.vardec_n.var_value_type = NODE_VALUE_TYPE_INT →
        klt_native_sleep klt_str_to_int ⟨[param], env⟩ suspensions
          = some (none, suspensions ++ [klt_str_to_int param.value]))
    ∧ (∀ var, param.type = NODE_VALUE_TYPE_VAR →
        klt_environment_getvar env param.value = some var →
        var.vardec_n.var_value_type ≠ NODE_VALUE_TYPE_INT →
        klt_native_sleep klt_str_to_int ⟨[param], env⟩ suspensions
          = some (none, suspensions ++
              [int_of_intptr param.value_bits, klt_str_to_int param.value]))
    ∧ (∀ (other : klt_environment) var var',
        klt_environment_getvar env param.value = some var →
        klt_environment_getvar other param.value = some var' →
        var.vardec_n.var_value_type = var'.vardec_n.var_value_type →
        klt_native_sleep klt_str_to_int ⟨[param], env⟩ suspensions
          = klt_native_sleep klt_str_to_int ⟨[param], other⟩ suspensions) := by
  have hget : klt_vector_get [param] 0 = some param := rfl
  refine ⟨?_, ?_, ?_, ?_⟩
  · intro hlit
    simp only [klt_native_sleep, hget, hlit, if_false, psleep]
  · intro var hparam hbound hkind
    simp [klt_native_sleep, hget, hparam, hbound, hkind, psleep]
  · intro var hparam hbound hkind
    simp [klt_native_sleep, hget, hparam, hbound, hkind, psleep]
  · intro other var var' hbound hbound' hkind
    simp only [klt_native_sleep, hget, hbound, hbound', hkind]

/-- Claim C10 on the example environment: the literal `"1"` and the integer
variable `answer` give one suspension; the long variable `delay`, bound to 250,
gives two, neither of which is 250. -/
theorem klt_native_sleep_suspensions_witness :
    klt_native_sleep example_str_to_int
        ⟨[⟨NODE_VALUE_TYPE_LONG, "1", 4096⟩], example_env⟩ [] = some (none, [1])
    ∧ klt_native_sleep example_str_to_int
        ⟨[⟨NODE_VALUE_TYPE_VAR, "answer", 4096⟩], example_env⟩ [] = some (none, [0])
    ∧ klt_native_sleep example_str_to_int
        ⟨[⟨NODE_VALUE_TYPE_VAR, "delay", 4096⟩], example_env⟩ [] = some (none, [4096, 0]) :=
  ⟨((klt_native_sleep_suspensions example_str_to_int example_env
        ⟨NODE_VALUE_TYPE_LONG, "1", 4096⟩ []).1 (by decide)).trans (by decide),
   ((klt_native_sleep_suspensions example_str_to_int example_env
        ⟨NODE_VALUE_TYPE_VAR, "answer", 4096⟩ []).2.1
        ⟨⟨NODE_VALUE_TYPE_INT, ⟨42, klt_pointee.nothing⟩⟩⟩ rfl (by decide) rfl).trans
      (by decide),
   ((klt_native_sleep_suspensions example_str_to_int example_env
        ⟨NODE_VALUE_TYPE_VAR, "delay", 4096⟩ []).2.2.1
        ⟨⟨NODE_VALUE_TYPE_LONG, ⟨250, klt_pointee.nothing⟩⟩⟩ rfl (by decide) (by decide)).trans
      (by decide)⟩
